import Mathlib

/-!
Verification of the CORSAIR VOID autoswitcher core (VOID_autoswitch.py):
the report classifier, the link-state machine (`on_data`, `apply_state`,
`watcher` tick) and the debounced action dispatcher (`set_default_playback`).

Shallow embedding conventions:
* Timestamps (Python `time.time()` floats) are modelled as `Rat`; each
  handler invocation receives the single clock reading `now` it uses.
* The Python state tags are the string literals `"UNKNOWN"`, `"ONLINE"`,
  `"OFFLINE"`; they are embedded as the inductive `StateTag`.
* The classifier's result strings `"POWER_ON"`, `"POWER_OFF"`,
  `"HB_ONLINE"`, `"HB_OFFLINE"`, `"HB_UNKNOWN"`, `"POWER_OTHER"`, `"OTHER"`
  are embedded as the inductive `Evt`, keeping all seven tags distinct as
  the code does.
* Side effects of the dispatcher are made observable: `invocations` counts
  runs of the external command, `okCount` / `failCount` / `noBinaryCount`
  count the three printed outcome messages, and `transLog` records the
  `STATE -> ...` transition lines.  Whether the external binary exists and
  whether the external command exits 0 are environment facts, carried by
  `Env`.
-/

namespace VoidAutoswitch

/-- The three state strings `"UNKNOWN"`, `"ONLINE"`, `"OFFLINE"` used for
both `state` and `desired` in the source. -/
inductive StateTag where
  | unknown
  | online
  | offline
  deriving Repr, DecidableEq

/-- The seven classifier result strings of `classify` in the source. -/
inductive Evt where
  | powerOn
  | powerOff
  | hbOnline
  | hbOffline
  | hbUnknown
  | powerOther
  | other
  deriving Repr, DecidableEq

/-- Constant `DEBOUNCE_APPLY = 0.5` seconds: minimum time between switch attempts. -/
def DEBOUNCE_APPLY : Rat := 1 / 2

/-- Constant `CHECK_INTERVAL = 0.1` seconds: the watcher tick period. -/
def CHECK_INTERVAL : Rat := 1 / 10

/-- Configuration constant `HEADSET_DEVICE_NAME`. -/
def HEADSET_DEVICE_NAME : String := "CORSAIR VOID WIRELESS v2 Gaming Headset"

/-- Configuration constant `SPEAKERS_DEVICE_NAME`. -/
def SPEAKERS_DEVICE_NAME : String := "Realtek(R) Audio"

/-- The mutable module-level state of the script, together with observable
side-effect instrumentation (counters for the dispatcher's subprocess runs
and printed messages, and the log of state transitions). -/
structure Machine where
  last_rx : Rat
  last_online_hb : Rat
  last_offline_hb : Rat
  last_apply : Rat
  state : StateTag
  desired : StateTag
  transLog : List (Rat × StateTag)
  invocations : Nat
  okCount : Nat
  failCount : Nat
  noBinaryCount : Nat
  deriving Repr, DecidableEq

/-- The initial module-level state: timestamps `0.0`, both tags `"UNKNOWN"`,
no observed side effects. -/
def initMachine : Machine :=
  { last_rx := 0
    last_online_hb := 0
    last_offline_hb := 0
    last_apply := 0
    state := .unknown
    desired := .unknown
    transLog := []
    invocations := 0
    okCount := 0
    failCount := 0
    noBinaryCount := 0 }

/-- Environment facts the dispatcher depends on: whether
`SoundVolumeView.exe` exists on disk, and whether the external command
exits with status 0 when run. -/
structure Env where
  binaryPresent : Bool
  actionOk : Bool
  deriving Repr, DecidableEq

/-- Function `classify(data)` from the source, byte-for-byte:
empty report → `"OTHER"`; report id `0x01` → heartbeat cases or
`"HB_UNKNOWN"`; report id `0x03` → power cases or `"POWER_OTHER"`;
anything else → `"OTHER"`. -/
def classify (data : List Nat) : Evt :=
  if data = [] then
    .other
  else
    if data.headD 0 = 0x01 then
      if data.length ≥ 3 then
        if data.getD 1 0 = 1 ∧ data.getD 2 0 = 6 then
          .hbOnline
        else if data.getD 1 0 = 0 ∧ data.getD 2 0 = 18 then
          .hbOffline
        else
          .hbUnknown
      else
        .hbUnknown
    else if data.headD 0 = 0x03 then
      if data.length ≥ 6 ∧ data.getD 1 0 = 0 ∧ data.getD 2 0 = 1 ∧
          data.getD 3 0 = 54 ∧ data.getD 4 0 = 0 then
        if data.getD 5 0 = 2 then
          .powerOn
        else if data.getD 5 0 = 0 then
          .powerOff
        else
          .powerOther
      else
        .powerOther
    else
      .other

/-- Function `set_default_playback(name)` from the source.  If the binary is
missing: print an error and return.  If within the debounce window:
return silently.  Otherwise run the external command twice; on success
update `last_apply` and print `[OK]`, on `CalledProcessError` print
`[ERR]` and leave `last_apply` unchanged. -/
def set_default_playback (env : Env) (now : Rat) (_name : String)
    (m : Machine) : Machine :=
  if env.binaryPresent = false then
    { m with noBinaryCount := m.noBinaryCount + 1 }
  else if now - m.last_apply < DEBOUNCE_APPLY then
    m
  else if env.actionOk then
    { m with invocations := m.invocations + 1
             last_apply := now
             okCount := m.okCount + 1 }
  else
    { m with invocations := m.invocations + 1
             failCount := m.failCount + 1 }

/-- Function `apply_state(new_state, reason)` from the source: no-op when
`new_state == state`; otherwise set `state`, print the transition line
(recorded in `transLog`) and dispatch the playback switch for `"ONLINE"`
or `"OFFLINE"`. -/
def apply_state (env : Env) (now : Rat) (new_state : StateTag)
    (m : Machine) : Machine :=
  if new_state = m.state then
    m
  else
    let m1 : Machine := { m with state := new_state
                                 transLog := (now, new_state) :: m.transLog }
    if new_state = .online then
      set_default_playback env now HEADSET_DEVICE_NAME m1
    else if new_state = .offline then
      set_default_playback env now SPEAKERS_DEVICE_NAME m1
    else
      m1

/-- The branch ladder of `on_data` after `evt = classify(data)`: stamp
`last_rx`, then handle the four recognized events; all other events fall
through with no further effect. -/
def handleEvent (env : Env) (now : Rat) (evt : Evt) (m : Machine) : Machine :=
  let m0 : Machine := { m with last_rx := now }
  match evt with
  | .powerOn =>
    apply_state env now .online { m0 with desired := .online }
  | .powerOff =>
    apply_state env now .offline { m0 with desired := .offline }
  | .hbOnline =>
    let m1 : Machine := { m0 with last_online_hb := now }
    let m2 : Machine :=
      if m1.desired ≠ .online then { m1 with desired := .online } else m1
    if m2.state ≠ .online then apply_state env now .online m2 else m2
  | .hbOffline =>
    let m1 : Machine := { m0 with last_offline_hb := now }
    let m2 : Machine :=
      if m1.desired ≠ .offline then { m1 with desired := .offline } else m1
    if m2.state ≠ .offline then apply_state env now .offline m2 else m2
  | _ =>
    m0

/-- Function `on_data(data)` from the source: classify the report, then run the
branch ladder under the lock. -/
def on_data (env : Env) (now : Rat) (data : List Nat)
    (m : Machine) : Machine :=
  handleEvent env now (classify data) m

/-- One iteration of the `watcher` loop body (after the sleep), from the
source: heartbeat reconciliation only. -/
def tick (env : Env) (now : Rat) (m : Machine) : Machine :=
  if m.desired ≠ m.state then
    if m.desired = .online ∧ m.last_online_hb > 0 then
      apply_state env now .online m
    else if m.desired = .offline ∧ m.last_offline_hb > 0 then
      apply_state env now .offline m
    else
      m
  else
    m

/-- An external stimulus: either a raw report delivered by the device feed
at a clock time, or a watcher tick at a clock time. -/
inductive Step where
  | report (now : Rat) (data : List Nat)
  | tickAt (now : Rat)
  deriving Repr

/-- Process one stimulus. -/
def stepM (env : Env) (m : Machine) : Step → Machine
  | .report now data => on_data env now data m
  | .tickAt now => tick env now m

/-- Process a sequence of stimuli in order. -/
def run (env : Env) (m : Machine) : List Step → Machine
  | [] => m
  | s :: rest => run env (stepM env m s) rest

/-- The five-value event enumeration of the spec (§3 ClassifiedEvent);
the code's `HB_UNKNOWN`, `POWER_OTHER`, `OTHER` all denote `Unknown`. -/
inductive ClassifiedEvent where
  | powerOn
  | powerOff
  | heartbeatOnline
  | heartbeatOffline
  | unknown
  deriving Repr, DecidableEq

/-- Collapse of the code's seven tags onto the spec's five-value
enumeration. -/
def Evt.toClassified : Evt → ClassifiedEvent
  | .powerOn => .powerOn
  | .powerOff => .powerOff
  | .hbOnline => .heartbeatOnline
  | .hbOffline => .heartbeatOffline
  | .hbUnknown => .unknown
  | .powerOther => .unknown
  | .other => .unknown

/-- Modelled from the spec: the §4.1 classification table, written
directly from the spec's words, to be compared with the source
`classify`. -/
def specClassify (data : List Nat) : ClassifiedEvent :=
  if data = [] then
    .unknown
  else if data.headD 0 = 0x01 then
    if data.length ≥ 3 ∧ data.getD 1 0 = 1 ∧ data.getD 2 0 = 6 then
      .heartbeatOnline
    else if data.length ≥ 3 ∧ data.getD 1 0 = 0 ∧ data.getD 2 0 = 18 then
      .heartbeatOffline
    else
      .unknown
  else if data.headD 0 = 0x03 then
    if data.length ≥ 6 ∧ data.getD 1 0 = 0 ∧ data.getD 2 0 = 1 ∧
        data.getD 3 0 = 54 ∧ data.getD 4 0 = 0 then
      if data.getD 5 0 = 2 then
        .powerOn
      else if data.getD 5 0 = 0 then
        .powerOff
      else
        .unknown
    else
      .unknown
  else
    .unknown

/-- C1: the classifier is a total pure function of the raw byte report
implementing exactly the §4.1 table, with the code's `HB_UNKNOWN`,
`POWER_OTHER` and `OTHER` tags all denoting `Unknown`. -/
theorem classify_implements_spec_table (data : List Nat) :
    (classify data).toClassified = specClassify data := by
  unfold classify specClassify
  split_ifs <;> first | rfl | omega

/-! Helper lemmas: field preservation of the dispatcher and shapes of
`apply_state` and `handleEvent` results. -/

theorem sdp_state (env : Env) (now : Rat) (name : String) (m : Machine) :
    (set_default_playback env now name m).state = m.state := by
  unfold set_default_playback; split_ifs <;> rfl

theorem sdp_desired (env : Env) (now : Rat) (name : String) (m : Machine) :
    (set_default_playback env now name m).desired = m.desired := by
  unfold set_default_playback; split_ifs <;> rfl

theorem sdp_transLog (env : Env) (now : Rat) (name : String) (m : Machine) :
    (set_default_playback env now name m).transLog = m.transLog := by
  unfold set_default_playback; split_ifs <;> rfl

theorem sdp_last_rx (env : Env) (now : Rat) (name : String) (m : Machine) :
    (set_default_playback env now name m).last_rx = m.last_rx := by
  unfold set_default_playback; split_ifs <;> rfl

theorem sdp_last_online_hb (env : Env) (now : Rat) (name : String)
    (m : Machine) :
    (set_default_playback env now name m).last_online_hb =
      m.last_online_hb := by
  unfold set_default_playback; split_ifs <;> rfl

theorem sdp_last_offline_hb (env : Env) (now : Rat) (name : String)
    (m : Machine) :
    (set_default_playback env now name m).last_offline_hb =
      m.last_offline_hb := by
  unfold set_default_playback; split_ifs <;> rfl

theorem apply_state_self (env : Env) (now : Rat) (new_state : StateTag)
    (m : Machine) (h : new_state = m.state) :
    apply_state env now new_state m = m := by
  unfold apply_state; rw [if_pos h]

theorem apply_state_online_of_ne (env : Env) (now : Rat) (m : Machine)
    (h : m.state ≠ .online) :
    apply_state env now .online m =
      set_default_playback env now HEADSET_DEVICE_NAME
        { m with state := .online, transLog := (now, .online) :: m.transLog } := by
  unfold apply_state
  rw [if_neg (fun he => h he.symm)]
  rfl

theorem apply_state_offline_of_ne (env : Env) (now : Rat) (m : Machine)
    (h : m.state ≠ .offline) :
    apply_state env now .offline m =
      set_default_playback env now SPEAKERS_DEVICE_NAME
        { m with state := .offline, transLog := (now, .offline) :: m.transLog } := by
  unfold apply_state
  rw [if_neg (fun he => h he.symm)]
  rfl

theorem apply_state_desired (env : Env) (now : Rat) (new_state : StateTag)
    (m : Machine) :
    (apply_state env now new_state m).desired = m.desired := by
  unfold apply_state
  split_ifs <;> simp [sdp_desired]

theorem apply_state_state (env : Env) (now : Rat) (new_state : StateTag)
    (m : Machine) :
    (apply_state env now new_state m).state = new_state ∨
      (apply_state env now new_state m).state = m.state := by
  unfold apply_state
  split_ifs <;> simp [sdp_state]

theorem apply_state_transLog (env : Env) (now : Rat) (new_state : StateTag)
    (m : Machine) :
    (apply_state env now new_state m).transLog =
        (now, new_state) :: m.transLog ∨
      (apply_state env now new_state m).transLog = m.transLog := by
  unfold apply_state
  split_ifs <;> simp [sdp_transLog]

theorem sdp_missing_binary (env : Env) (now : Rat) (name : String)
    (m : Machine) (hb : env.binaryPresent = false) :
    set_default_playback env now name m =
      { m with noBinaryCount := m.noBinaryCount + 1 } := by
  unfold set_default_playback
  rw [if_pos hb]

theorem sdp_debounced (env : Env) (now : Rat) (name : String) (m : Machine)
    (hb : env.binaryPresent = true)
    (hd : now - m.last_apply < DEBOUNCE_APPLY) :
    set_default_playback env now name m = m := by
  unfold set_default_playback
  rw [if_neg (by simp [hb]), if_pos hd]

theorem sdp_ok (env : Env) (now : Rat) (name : String) (m : Machine)
    (hb : env.binaryPresent = true) (ha : env.actionOk = true)
    (hd : DEBOUNCE_APPLY ≤ now - m.last_apply) :
    set_default_playback env now name m =
      { m with invocations := m.invocations + 1, last_apply := now,
               okCount := m.okCount + 1 } := by
  unfold set_default_playback
  rw [if_neg (by simp [hb]), if_neg (not_lt.mpr hd), if_pos ha]

theorem sdp_failed (env : Env) (now : Rat) (name : String) (m : Machine)
    (hb : env.binaryPresent = true) (ha : env.actionOk = false)
    (hd : DEBOUNCE_APPLY ≤ now - m.last_apply) :
    set_default_playback env now name m =
      { m with invocations := m.invocations + 1,
               failCount := m.failCount + 1 } := by
  unfold set_default_playback
  rw [if_neg (by simp [hb]), if_neg (not_lt.mpr hd), if_neg (by simp [ha])]

theorem handleEvent_powerOn (env : Env) (now : Rat) (m : Machine) :
    handleEvent env now .powerOn m =
      apply_state env now .online { m with last_rx := now, desired := .online } :=
  rfl

theorem handleEvent_powerOff (env : Env) (now : Rat) (m : Machine) :
    handleEvent env now .powerOff m =
      apply_state env now .offline { m with last_rx := now, desired := .offline } :=
  rfl

theorem handleEvent_hbUnknown (env : Env) (now : Rat) (m : Machine) :
    handleEvent env now .hbUnknown m = { m with last_rx := now } :=
  rfl

theorem handleEvent_powerOther (env : Env) (now : Rat) (m : Machine) :
    handleEvent env now .powerOther m = { m with last_rx := now } :=
  rfl

theorem handleEvent_other (env : Env) (now : Rat) (m : Machine) :
    handleEvent env now .other m = { m with last_rx := now } :=
  rfl

theorem handleEvent_hbOnline_noop (env : Env) (now : Rat) (m : Machine)
    (h : m.state = .online) :
    handleEvent env now .hbOnline m =
      { m with last_rx := now, last_online_hb := now, desired := .online } := by
  obtain ⟨rx, onhb, offhb, lap, st, des, tl, inv, ok, fl, nb⟩ := m
  simp only [handleEvent] at *
  subst h
  split_ifs with h1 h2 h3 <;> simp_all

theorem handleEvent_hbOnline_trans (env : Env) (now : Rat) (m : Machine)
    (h : m.state ≠ .online) :
    handleEvent env now .hbOnline m =
      set_default_playback env now HEADSET_DEVICE_NAME
        { m with last_rx := now, last_online_hb := now, desired := .online,
                 state := .online, transLog := (now, .online) :: m.transLog } := by
  obtain ⟨rx, onhb, offhb, lap, st, des, tl, inv, ok, fl, nb⟩ := m
  simp only [handleEvent] at *
  split_ifs with h1 <;>
    simp_all [apply_state_online_of_ne, set_default_playback]

theorem handleEvent_hbOffline_noop (env : Env) (now : Rat) (m : Machine)
    (h : m.state = .offline) :
    handleEvent env now .hbOffline m =
      { m with last_rx := now, last_offline_hb := now, desired := .offline } := by
  obtain ⟨rx, onhb, offhb, lap, st, des, tl, inv, ok, fl, nb⟩ := m
  simp only [handleEvent] at *
  subst h
  split_ifs with h1 <;> simp_all

theorem handleEvent_hbOffline_trans (env : Env) (now : Rat) (m : Machine)
    (h : m.state ≠ .offline) :
    handleEvent env now .hbOffline m =
      set_default_playback env now SPEAKERS_DEVICE_NAME
        { m with last_rx := now, last_offline_hb := now, desired := .offline,
                 state := .offline, transLog := (now, .offline) :: m.transLog } := by
  obtain ⟨rx, onhb, offhb, lap, st, des, tl, inv, ok, fl, nb⟩ := m
  simp only [handleEvent] at *
  split_ifs with h1 <;>
    simp_all [apply_state_offline_of_ne, set_default_playback]

/-- C2: power events are authoritative: a `POWER_ON` report sets
`desired` to online and forces `state` to online, a `POWER_OFF` report
sets `desired` to offline and forces `state` to offline; the transition
(state update, transition record, dispatch attempt) happens exactly when
the target differs from the current `state`, and when `state` already
equals the target the event changes nothing but `last_rx` and
`desired`. -/
theorem power_events_authoritative (env : Env) (now : Rat)
    (dOn dOff : List Nat) (m : Machine)
    (hOn : classify dOn = .powerOn) (hOff : classify dOff = .powerOff) :
    ((on_data env now dOn m).desired = .online ∧
     (on_data env now dOn m).state = .online ∧
     (m.state = .online →
       on_data env now dOn m = { m with last_rx := now, desired := .online }) ∧
     (m.state ≠ .online →
       on_data env now dOn m =
         set_default_playback env now HEADSET_DEVICE_NAME
           { m with last_rx := now, desired := .online, state := .online,
                    transLog := (now, .online) :: m.transLog })) ∧
    ((on_data env now dOff m).desired = .offline ∧
     (on_data env now dOff m).state = .offline ∧
     (m.state = .offline →
       on_data env now dOff m = { m with last_rx := now, desired := .offline }) ∧
     (m.state ≠ .offline →
       on_data env now dOff m =
         set_default_playback env now SPEAKERS_DEVICE_NAME
           { m with last_rx := now, desired := .offline, state := .offline,
                    transLog := (now, .offline) :: m.transLog })) := by
  have eOn : on_data env now dOn m =
      apply_state env now .online { m with last_rx := now, desired := .online } := by
    unfold on_data; rw [hOn, handleEvent_powerOn]
  have eOff : on_data env now dOff m =
      apply_state env now .offline { m with last_rx := now, desired := .offline } := by
    unfold on_data; rw [hOff, handleEvent_powerOff]
  constructor
  · rw [eOn]
    by_cases h : m.state = .online
    · rw [apply_state_self env now .online _ (by simp [h])]
      simp [h]
    · rw [apply_state_online_of_ne env now _ (by simpa using h)]
      refine ⟨by simp [sdp_desired], by simp [sdp_state], fun hc => absurd hc h,
        fun _ => rfl⟩
  · rw [eOff]
    by_cases h : m.state = .offline
    · rw [apply_state_self env now .offline _ (by simp [h])]
      simp [h]
    · rw [apply_state_offline_of_ne env now _ (by simpa using h)]
      refine ⟨by simp [sdp_desired], by simp [sdp_state], fun hc => absurd hc h,
        fun _ => rfl⟩

/-- Witness for C2 at the sample power reports of the source's data-format
comment, starting from the initial machine. -/
theorem power_events_authoritative_witness :
    classify [3, 0, 1, 54, 0, 2] = .powerOn ∧
    classify [3, 0, 1, 54, 0, 0] = .powerOff ∧
    (on_data ⟨true, true⟩ 1 [3, 0, 1, 54, 0, 2] initMachine).state = .online ∧
    (on_data ⟨true, true⟩ 1 [3, 0, 1, 54, 0, 0] initMachine).desired = .offline :=
  ⟨by decide, by decide,
    (power_events_authoritative ⟨true, true⟩ 1 [3, 0, 1, 54, 0, 2]
      [3, 0, 1, 54, 0, 0] initMachine (by decide) (by decide)).1.2.1,
    (power_events_authoritative ⟨true, true⟩ 1 [3, 0, 1, 54, 0, 2]
      [3, 0, 1, 54, 0, 0] initMachine (by decide) (by decide)).2.1⟩

/-- C3: a transition with a changed online/offline target always updates
`state` and records the transition, while the external action is run only
when at least `DEBOUNCE_APPLY` seconds have elapsed since `last_apply`;
inside the debounce window (with the binary present) the dispatch is
skipped silently and the machine ends exactly at the recorded transition,
nothing else changed. -/
theorem transition_always_dispatch_debounced (env : Env) (now : Rat)
    (new_state : StateTag) (m : Machine)
    (hne : new_state ≠ m.state)
    (htag : new_state = .online ∨ new_state = .offline) :
    (apply_state env now new_state m).state = new_state ∧
    (apply_state env now new_state m).transLog =
      (now, new_state) :: m.transLog ∧
    ((apply_state env now new_state m).invocations ≠ m.invocations →
      DEBOUNCE_APPLY ≤ now - m.last_apply) ∧
    (env.binaryPresent = true → now - m.last_apply < DEBOUNCE_APPLY →
      apply_state env now new_state m =
        { m with state := new_state,
                 transLog := (now, new_state) :: m.transLog }) := by
  rcases htag with h | h <;> subst h
  · rw [apply_state_online_of_ne env now m (fun hs => hne hs.symm)]
    refine ⟨by simp [sdp_state], by simp [sdp_transLog], ?_, ?_⟩
    · intro hinv
      by_contra hle
      have hlt := not_le.mp hle
      cases hb : env.binaryPresent
      · rw [sdp_missing_binary env now _ _ hb] at hinv
        exact hinv rfl
      · rw [sdp_debounced env now _ _ hb (by simpa using hlt)] at hinv
        exact hinv rfl
    · intro hb hd
      rw [sdp_debounced env now _ _ hb (by simpa using hd)]
  · rw [apply_state_offline_of_ne env now m (fun hs => hne hs.symm)]
    refine ⟨by simp [sdp_state], by simp [sdp_transLog], ?_, ?_⟩
    · intro hinv
      by_contra hle
      have hlt := not_le.mp hle
      cases hb : env.binaryPresent
      · rw [sdp_missing_binary env now _ _ hb] at hinv
        exact hinv rfl
      · rw [sdp_debounced env now _ _ hb (by simpa using hlt)] at hinv
        exact hinv rfl
    · intro hb hd
      rw [sdp_debounced env now _ _ hb (by simpa using hd)]

/-- Witness for C3: a transition to online at `now = 1/4` from the initial
machine (inside the debounce window since `last_apply = 0`). -/
theorem transition_always_dispatch_debounced_witness :
    StateTag.online ≠ initMachine.state ∧
    (apply_state ⟨true, true⟩ (1 / 4) .online initMachine).state = .online ∧
    (apply_state ⟨true, true⟩ (1 / 4) .online initMachine).transLog =
      [((1 / 4 : Rat), StateTag.online)] :=
  ⟨by decide,
   (transition_always_dispatch_debounced ⟨true, true⟩ (1 / 4) .online
      initMachine (by decide) (Or.inl rfl)).1,
   (transition_always_dispatch_debounced ⟨true, true⟩ (1 / 4) .online
      initMachine (by decide) (Or.inl rfl)).2.1⟩

/-- C4: heartbeat events are advisory: an `HB_ONLINE` report stamps
`last_online_hb` and sets `desired` to online, an `HB_OFFLINE` report
stamps `last_offline_hb` and sets `desired` to offline; a transition is
triggered exactly when `state` differs from the heartbeat's implied
state, and a heartbeat matching the current `state` changes nothing but
the timestamps and `desired` (no transition, no dispatch). -/
theorem heartbeat_events_advisory (env : Env) (now : Rat)
    (dOn dOff : List Nat) (m : Machine)
    (hOn : classify dOn = .hbOnline) (hOff : classify dOff = .hbOffline) :
    ((on_data env now dOn m).last_online_hb = now ∧
     (on_data env now dOn m).desired = .online ∧
     (m.state = .online →
       on_data env now dOn m =
         { m with last_rx := now, last_online_hb := now,
                  desired := .online }) ∧
     (m.state ≠ .online →
       (on_data env now dOn m).state = .online ∧
       (on_data env now dOn m).transLog = (now, .online) :: m.transLog)) ∧
    ((on_data env now dOff m).last_offline_hb = now ∧
     (on_data env now dOff m).desired = .offline ∧
     (m.state = .offline →
       on_data env now dOff m =
         { m with last_rx := now, last_offline_hb := now,
                  desired := .offline }) ∧
     (m.state ≠ .offline →
       (on_data env now dOff m).state = .offline ∧
       (on_data env now dOff m).transLog = (now, .offline) :: m.transLog)) := by
  have eOn : on_data env now dOn m = handleEvent env now .hbOnline m := by
    unfold on_data; rw [hOn]
  have eOff : on_data env now dOff m = handleEvent env now .hbOffline m := by
    unfold on_data; rw [hOff]
  rw [eOn, eOff]
  constructor
  · by_cases h : m.state = .online
    · rw [handleEvent_hbOnline_noop env now m h]
      exact ⟨rfl, rfl, fun _ => rfl, fun hc => absurd h hc⟩
    · rw [handleEvent_hbOnline_trans env now m h]
      exact ⟨by simp [sdp_last_online_hb], by simp [sdp_desired],
        fun hc => absurd hc h,
        fun _ => ⟨by simp [sdp_state], by simp [sdp_transLog]⟩⟩
  · by_cases h : m.state = .offline
    · rw [handleEvent_hbOffline_noop env now m h]
      exact ⟨rfl, rfl, fun _ => rfl, fun hc => absurd h hc⟩
    · rw [handleEvent_hbOffline_trans env now m h]
      exact ⟨by simp [sdp_last_offline_hb], by simp [sdp_desired],
        fun hc => absurd hc h,
        fun _ => ⟨by simp [sdp_state], by simp [sdp_transLog]⟩⟩

/-- Witness for C4 at the sample heartbeat reports of the source's
data-format comment, starting from the initial machine. -/
theorem heartbeat_events_advisory_witness :
    classify [1, 1, 6] = .hbOnline ∧
    classify [1, 0, 18] = .hbOffline ∧
    (on_data ⟨true, true⟩ 2 [1, 1, 6] initMachine).last_online_hb = 2 ∧
    (on_data ⟨true, true⟩ 2 [1, 0, 18] initMachine).desired = .offline :=
  ⟨by decide, by decide,
   (heartbeat_events_advisory ⟨true, true⟩ 2 [1, 1, 6] [1, 0, 18]
      initMachine (by decide) (by decide)).1.1,
   (heartbeat_events_advisory ⟨true, true⟩ 2 [1, 1, 6] [1, 0, 18]
      initMachine (by decide) (by decide)).2.2.1⟩

/-- C5: on a watcher tick, when `desired` differs from `state` and the
matching heartbeat timestamp is positive, the desired state is re-applied
as a transition; when `desired` is online (resp. offline) but no such
heartbeat was ever observed the tick changes nothing, and a tick with
`desired` equal to `state` changes nothing. -/
theorem tick_reconciliation (env : Env) (now : Rat) (m : Machine) :
    (m.desired = m.state → tick env now m = m) ∧
    (m.desired = .online → ¬ 0 < m.last_online_hb → tick env now m = m) ∧
    (m.desired = .offline → ¬ 0 < m.last_offline_hb → tick env now m = m) ∧
    (m.desired ≠ m.state → m.desired = .online → 0 < m.last_online_hb →
      (tick env now m).state = .online ∧
      (tick env now m).transLog = (now, .online) :: m.transLog) ∧
    (m.desired ≠ m.state → m.desired = .offline → 0 < m.last_offline_hb →
      (tick env now m).state = .offline ∧
      (tick env now m).transLog = (now, .offline) :: m.transLog) := by
  refine ⟨?_, ?_, ?_, ?_, ?_⟩
  · intro h
    unfold tick
    rw [if_neg (by simp [h])]
  · intro hd hh
    unfold tick
    split_ifs with h1 h2 h3 <;> simp_all
  · intro hd hh
    unfold tick
    split_ifs with h1 h2 h3 <;> simp_all
  · intro hne hd hh
    have hs : m.state ≠ .online := fun hs => hne (hd.trans hs.symm)
    unfold tick
    rw [if_pos hne, if_pos ⟨hd, hh⟩,
      apply_state_online_of_ne env now m hs]
    exact ⟨by simp [sdp_state], by simp [sdp_transLog]⟩
  · intro hne hd hh
    have hs : m.state ≠ .offline := fun hs => hne (hd.trans hs.symm)
    have hdo : m.desired ≠ .online := by simp [hd]
    unfold tick
    rw [if_pos hne, if_neg (by simp [hdo]), if_pos ⟨hd, hh⟩,
      apply_state_offline_of_ne env now m hs]
    exact ⟨by simp [sdp_state], by simp [sdp_transLog]⟩

/-- A machine that desires online, has seen an online heartbeat at time
`1`, but is still in the unknown link state. -/
def reconMachine : Machine :=
  { initMachine with desired := .online, last_online_hb := 1 }

/-- Witness for C5: a tick at `now = 3` on `reconMachine` re-applies the
desired online state. -/
theorem tick_reconciliation_witness :
    reconMachine.desired ≠ reconMachine.state ∧
    (tick ⟨true, true⟩ 3 reconMachine).state = .online :=
  ⟨by decide,
   ((tick_reconciliation ⟨true, true⟩ 3 reconMachine).2.2.2.1
      (by decide) rfl (by decide)).1⟩

/-- The machine after a first `POWER_ON` at `now = 10` from the initial
state (with the binary present and the external command succeeding). -/
def afterFirstPowerOn : Machine :=
  { last_rx := 10
    last_online_hb := 0
    last_offline_hb := 0
    last_apply := 10
    state := .online
    desired := .online
    transLog := [(10, .online)]
    invocations := 1
    okCount := 1
    failCount := 0
    noBinaryCount := 0 }

theorem first_powerOn_eq :
    on_data ⟨true, true⟩ 10 [3, 0, 1, 54, 0, 2] initMachine =
      afterFirstPowerOn := by
  unfold on_data
  rw [show classify [3, 0, 1, 54, 0, 2] = .powerOn from by decide,
    handleEvent_powerOn,
    apply_state_online_of_ne _ _ _ (by decide),
    sdp_ok _ _ _ _ rfl rfl (by norm_num [initMachine, DEBOUNCE_APPLY])]
  rfl

/-- Counterexample to C6 as stated: after a first `POWER_ON` at `now = 10`
(which dispatched, `last_apply = 10`), a second `POWER_ON` at `now = 20` —
far outside the debounce window — triggers no dispatch at all, because
`state` is already online and `apply_state` returns before reaching the
dispatcher: the invocation count stays at 1 instead of becoming 2. -/
theorem powerOn_elapsed_but_no_dispatch :
    DEBOUNCE_APPLY ≤
      20 - (on_data ⟨true, true⟩ 10 [3, 0, 1, 54, 0, 2]
        initMachine).last_apply ∧
    (on_data ⟨true, true⟩ 10 [3, 0, 1, 54, 0, 2] initMachine).invocations
      = 1 ∧
    (on_data ⟨true, true⟩ 20 [3, 0, 1, 54, 0, 2]
        (on_data ⟨true, true⟩ 10 [3, 0, 1, 54, 0, 2]
          initMachine)).invocations = 1 := by
  rw [first_powerOn_eq]
  refine ⟨by norm_num [afterFirstPowerOn, DEBOUNCE_APPLY], rfl, ?_⟩
  unfold on_data
  rw [show classify [3, 0, 1, 54, 0, 2] = .powerOn from by decide,
    handleEvent_powerOn, apply_state_self _ _ _ _ (by decide)]
  rfl

/-- C6 as amended: a `POWER_ON` report always forces `state` to online;
it triggers exactly one dispatch when `state` was not already online and
at least `DEBOUNCE_APPLY` seconds have elapsed since `last_apply` (with
the binary present and the command succeeding); a `POWER_ON` arriving
when `state` is already online, or within the debounce window, leaves the
invocation count unchanged. -/
theorem powerOn_single_dispatch_amended (env : Env) (now : Rat)
    (data : List Nat) (m : Machine)
    (h : classify data = .powerOn)
    (hb : env.binaryPresent = true) (ha : env.actionOk = true) :
    (on_data env now data m).state = .online ∧
    (m.state ≠ .online → DEBOUNCE_APPLY ≤ now - m.last_apply →
      (on_data env now data m).invocations = m.invocations + 1 ∧
      (on_data env now data m).last_apply = now) ∧
    (m.state = .online →
      (on_data env now data m).invocations = m.invocations) ∧
    (now - m.last_apply < DEBOUNCE_APPLY →
      (on_data env now data m).invocations = m.invocations) := by
  have e : on_data env now data m =
      apply_state env now .online { m with last_rx := now, desired := .online } := by
    unfold on_data; rw [h, handleEvent_powerOn]
  rw [e]
  by_cases hs : m.state = .online
  · rw [apply_state_self env now .online _ (by simp [hs])]
    exact ⟨hs, fun hc => absurd hs hc, fun _ => rfl, fun _ => rfl⟩
  · rw [apply_state_online_of_ne env now _ (by simpa using hs)]
    refine ⟨by simp [sdp_state], ?_, fun hc => absurd hc hs, ?_⟩
    · intro _ hd
      rw [sdp_ok env now _ _ hb ha (by simpa using hd)]
      exact ⟨rfl, rfl⟩
    · intro hd
      rw [sdp_debounced env now _ _ hb (by simpa using hd)]

/-- Witness for the amended C6: the first `POWER_ON` at `now = 10` from
the initial machine dispatches exactly once. -/
theorem powerOn_single_dispatch_amended_witness :
    classify [3, 0, 1, 54, 0, 2] = .powerOn ∧
    initMachine.state ≠ .online ∧
    DEBOUNCE_APPLY ≤ 10 - initMachine.last_apply ∧
    (on_data ⟨true, true⟩ 10 [3, 0, 1, 54, 0, 2]
      initMachine).invocations = initMachine.invocations + 1 :=
  ⟨by decide, by decide, by norm_num [initMachine, DEBOUNCE_APPLY],
   ((powerOn_single_dispatch_amended ⟨true, true⟩ 10 [3, 0, 1, 54, 0, 2]
      initMachine (by decide) rfl rfl).2.1 (by decide)
      (by norm_num [initMachine, DEBOUNCE_APPLY])).1⟩

/-- C7: any report that classifies as Unknown (the code's `HB_UNKNOWN`,
`POWER_OTHER`, `OTHER` tags — including empty, malformed and too-short
reports) is processed without error and updates only `last_rx`; every
other field, log and counter is untouched. -/
theorem unknown_events_only_touch_last_rx (env : Env) (now : Rat)
    (data : List Nat) (m : Machine)
    (h : (classify data).toClassified = .unknown) :
    on_data env now data m = { m with last_rx := now } := by
  unfold on_data
  cases hc : classify data <;>
    simp_all [Evt.toClassified, handleEvent_hbUnknown,
      handleEvent_powerOther, handleEvent_other]

/-- Witness for C7: the empty report and the unrecognized heartbeat
payload `[1, 1, 7]` both classify as Unknown and only stamp `last_rx`. -/
theorem unknown_events_only_touch_last_rx_witness :
    (classify []).toClassified = .unknown ∧
    (classify [1, 1, 7]).toClassified = .unknown ∧
    on_data ⟨true, true⟩ 7 [] initMachine = { initMachine with last_rx := 7 } ∧
    on_data ⟨true, true⟩ 7 [1, 1, 7] initMachine =
      { initMachine with last_rx := 7 } :=
  ⟨by decide, by decide,
   unknown_events_only_touch_last_rx ⟨true, true⟩ 7 [] initMachine
     (by decide),
   unknown_events_only_touch_last_rx ⟨true, true⟩ 7 [1, 1, 7] initMachine
     (by decide)⟩

/-- C8: when the external command fails (non-zero exit), the dispatcher
reports the failure (`failCount` grows) and returns instead of raising;
`state`, `desired`, both heartbeat timestamps and `last_apply` are
exactly as before the failed dispatch, so the debounce clock is not
consumed and the next qualifying event retries. -/
theorem dispatch_failure_caught_state_unaffected (env : Env) (now : Rat)
    (name : String) (m : Machine)
    (hb : env.binaryPresent = true) (ha : env.actionOk = false)
    (hd : DEBOUNCE_APPLY ≤ now - m.last_apply) :
    (set_default_playback env now name m).failCount = m.failCount + 1 ∧
    (set_default_playback env now name m).state = m.state ∧
    (set_default_playback env now name m).desired = m.desired ∧
    (set_default_playback env now name m).last_online_hb =
      m.last_online_hb ∧
    (set_default_playback env now name m).last_offline_hb =
      m.last_offline_hb ∧
    (set_default_playback env now name m).last_apply = m.last_apply := by
  rw [sdp_failed env now name m hb ha hd]
  exact ⟨rfl, rfl, rfl, rfl, rfl, rfl⟩

/-- Witness for C8: a failing dispatch at `now = 10` from the initial
machine. -/
theorem dispatch_failure_caught_state_unaffected_witness :
    (set_default_playback ⟨true, false⟩ 10 HEADSET_DEVICE_NAME
      initMachine).failCount = initMachine.failCount + 1 ∧
    (set_default_playback ⟨true, false⟩ 10 HEADSET_DEVICE_NAME
      initMachine).state = initMachine.state :=
  ⟨(dispatch_failure_caught_state_unaffected ⟨true, false⟩ 10
      HEADSET_DEVICE_NAME initMachine rfl rfl
      (by norm_num [initMachine, DEBOUNCE_APPLY])).1,
   (dispatch_failure_caught_state_unaffected ⟨true, false⟩ 10
      HEADSET_DEVICE_NAME initMachine rfl rfl
      (by norm_num [initMachine, DEBOUNCE_APPLY])).2.1⟩

/-- C9: with the external binary missing, every attempted dispatch
reports the error exactly once (`noBinaryCount` grows by one) and returns
without invoking the command or touching `last_apply`; transitions are
still applied and logged, so monitoring continues. -/
theorem missing_binary_reported_monitoring_continues (env : Env)
    (now : Rat) (name : String) (new_state : StateTag) (m : Machine)
    (hb : env.binaryPresent = false) :
    (set_default_playback env now name m =
      { m with noBinaryCount := m.noBinaryCount + 1 }) ∧
    (new_state ≠ m.state → (new_state = .online ∨ new_state = .offline) →
      (apply_state env now new_state m).state = new_state ∧
      (apply_state env now new_state m).transLog =
        (now, new_state) :: m.transLog ∧
      (apply_state env now new_state m).invocations = m.invocations ∧
      (apply_state env now new_state m).last_apply = m.last_apply ∧
      (apply_state env now new_state m).noBinaryCount =
        m.noBinaryCount + 1) := by
  refine ⟨sdp_missing_binary env now name m hb, ?_⟩
  intro hne htag
  rcases htag with h | h <;> subst h
  · rw [apply_state_online_of_ne env now m (fun hs => hne hs.symm),
      sdp_missing_binary env now _ _ hb]
    exact ⟨rfl, rfl, rfl, rfl, rfl⟩
  · rw [apply_state_offline_of_ne env now m (fun hs => hne hs.symm),
      sdp_missing_binary env now _ _ hb]
    exact ⟨rfl, rfl, rfl, rfl, rfl⟩

/-- Witness for C9: with the binary missing, a transition to online from
the initial machine is still applied and logged while the error is
reported once and no invocation happens. -/
theorem missing_binary_reported_monitoring_continues_witness :
    StateTag.online ≠ initMachine.state ∧
    (apply_state ⟨false, true⟩ 4 .online initMachine).state = .online ∧
    (apply_state ⟨false, true⟩ 4 .online initMachine).invocations =
      initMachine.invocations ∧
    (apply_state ⟨false, true⟩ 4 .online initMachine).noBinaryCount =
      initMachine.noBinaryCount + 1 :=
  ⟨by decide,
   ((missing_binary_reported_monitoring_continues ⟨false, true⟩ 4
      HEADSET_DEVICE_NAME .online initMachine rfl).2 (by decide)
      (Or.inl rfl)).1,
   ((missing_binary_reported_monitoring_continues ⟨false, true⟩ 4
      HEADSET_DEVICE_NAME .online initMachine rfl).2 (by decide)
      (Or.inl rfl)).2.2.1,
   ((missing_binary_reported_monitoring_continues ⟨false, true⟩ 4
      HEADSET_DEVICE_NAME .online initMachine rfl).2 (by decide)
      (Or.inl rfl)).2.2.2.2⟩

theorem handleEvent_state_cases (env : Env) (now : Rat) (evt : Evt)
    (m : Machine) :
    (handleEvent env now evt m).state = .online ∨
    (handleEvent env now evt m).state = .offline ∨
    (handleEvent env now evt m).state = m.state := by
  cases evt
  case powerOn =>
    rw [handleEvent_powerOn]
    rcases apply_state_state env now .online _ with h | h
    · exact Or.inl h
    · exact Or.inr (Or.inr h)
  case powerOff =>
    rw [handleEvent_powerOff]
    rcases apply_state_state env now .offline _ with h | h
    · exact Or.inr (Or.inl h)
    · exact Or.inr (Or.inr h)
  case hbOnline =>
    by_cases h : m.state = .online
    · rw [handleEvent_hbOnline_noop env now m h]
      exact Or.inr (Or.inr rfl)
    · rw [handleEvent_hbOnline_trans env now m h]
      exact Or.inl (by simp [sdp_state])
  case hbOffline =>
    by_cases h : m.state = .offline
    · rw [handleEvent_hbOffline_noop env now m h]
      exact Or.inr (Or.inr rfl)
    · rw [handleEvent_hbOffline_trans env now m h]
      exact Or.inr (Or.inl (by simp [sdp_state]))
  case hbUnknown => exact Or.inr (Or.inr rfl)
  case powerOther => exact Or.inr (Or.inr rfl)
  case other => exact Or.inr (Or.inr rfl)

theorem handleEvent_desired_cases (env : Env) (now : Rat) (evt : Evt)
    (m : Machine) :
    (handleEvent env now evt m).desired = .online ∨
    (handleEvent env now evt m).desired = .offline ∨
    (handleEvent env now evt m).desired = m.desired := by
  cases evt
  case powerOn =>
    exact Or.inl (apply_state_desired env now .online _)
  case powerOff =>
    exact Or.inr (Or.inl (apply_state_desired env now .offline _))
  case hbOnline =>
    by_cases h : m.state = .online
    · rw [handleEvent_hbOnline_noop env now m h]
      exact Or.inl rfl
    · rw [handleEvent_hbOnline_trans env now m h]
      exact Or.inl (by simp [sdp_desired])
  case hbOffline =>
    by_cases h : m.state = .offline
    · rw [handleEvent_hbOffline_noop env now m h]
      exact Or.inr (Or.inl rfl)
    · rw [handleEvent_hbOffline_trans env now m h]
      exact Or.inr (Or.inl (by simp [sdp_desired]))
  case hbUnknown => exact Or.inr (Or.inr rfl)
  case powerOther => exact Or.inr (Or.inr rfl)
  case other => exact Or.inr (Or.inr rfl)

theorem handleEvent_transLog_cases (env : Env) (now : Rat) (evt : Evt)
    (m : Machine) :
    (handleEvent env now evt m).transLog = (now, .online) :: m.transLog ∨
    (handleEvent env now evt m).transLog = (now, .offline) :: m.transLog ∨
    (handleEvent env now evt m).transLog = m.transLog := by
  cases evt
  case powerOn =>
    rw [handleEvent_powerOn]
    rcases apply_state_transLog env now .online _ with h | h
    · exact Or.inl h
    · exact Or.inr (Or.inr h)
  case powerOff =>
    rw [handleEvent_powerOff]
    rcases apply_state_transLog env now .offline _ with h | h
    · exact Or.inr (Or.inl h)
    · exact Or.inr (Or.inr h)
  case hbOnline =>
    by_cases h : m.state = .online
    · rw [handleEvent_hbOnline_noop env now m h]
      exact Or.inr (Or.inr rfl)
    · rw [handleEvent_hbOnline_trans env now m h]
      exact Or.inl (by simp [sdp_transLog])
  case hbOffline =>
    by_cases h : m.state = .offline
    · rw [handleEvent_hbOffline_noop env now m h]
      exact Or.inr (Or.inr rfl)
    · rw [handleEvent_hbOffline_trans env now m h]
      exact Or.inr (Or.inl (by simp [sdp_transLog]))
  case hbUnknown => exact Or.inr (Or.inr rfl)
  case powerOther => exact Or.inr (Or.inr rfl)
  case other => exact Or.inr (Or.inr rfl)

theorem tick_state_cases (env : Env) (now : Rat) (m : Machine) :
    (tick env now m).state = .online ∨
    (tick env now m).state = .offline ∨
    (tick env now m).state = m.state := by
  unfold tick
  split_ifs with h1 h2 h3
  · rcases apply_state_state env now .online m with h | h
    · exact Or.inl h
    · exact Or.inr (Or.inr h)
  · rcases apply_state_state env now .offline m with h | h
    · exact Or.inr (Or.inl h)
    · exact Or.inr (Or.inr h)
  · exact Or.inr (Or.inr rfl)
  · exact Or.inr (Or.inr rfl)

theorem tick_desired (env : Env) (now : Rat) (m : Machine) :
    (tick env now m).desired = m.desired := by
  unfold tick
  split_ifs <;> simp [apply_state_desired]

theorem tick_transLog_cases (env : Env) (now : Rat) (m : Machine) :
    (tick env now m).transLog = (now, .online) :: m.transLog ∨
    (tick env now m).transLog = (now, .offline) :: m.transLog ∨
    (tick env now m).transLog = m.transLog := by
  unfold tick
  split_ifs with h1 h2 h3
  · rcases apply_state_transLog env now .online m with h | h
    · exact Or.inl h
    · exact Or.inr (Or.inr h)
  · rcases apply_state_transLog env now .offline m with h | h
    · exact Or.inr (Or.inl h)
    · exact Or.inr (Or.inr h)
  · exact Or.inr (Or.inr rfl)
  · exact Or.inr (Or.inr rfl)

theorem stepM_preserves_not_unknown (env : Env) (m : Machine) (s : Step) :
    ((stepM env m s).state = .unknown → m.state = .unknown) ∧
    ((stepM env m s).desired = .unknown → m.desired = .unknown) ∧
    (∀ p ∈ (stepM env m s).transLog, p.2 = .unknown → p ∈ m.transLog) := by
  cases s with
  | report now data =>
    refine ⟨?_, ?_, ?_⟩
    · intro h
      rcases handleEvent_state_cases env now (classify data) m with
        h1 | h1 | h1 <;> simp_all [stepM, on_data]
    · intro h
      rcases handleEvent_desired_cases env now (classify data) m with
        h1 | h1 | h1 <;> simp_all [stepM, on_data]
    · intro p hp hu
      rcases handleEvent_transLog_cases env now (classify data) m with
        h1 | h1 | h1 <;> simp_all [stepM, on_data] <;>
        rcases hp with hp | hp <;> simp_all
  | tickAt now =>
    refine ⟨?_, ?_, ?_⟩
    · intro h
      rcases tick_state_cases env now m with h1 | h1 | h1 <;>
        simp_all [stepM]
    · intro h
      rw [stepM, tick_desired env now m] at h
      exact h
    · intro p hp hu
      rcases tick_transLog_cases env now m with h1 | h1 | h1 <;>
        simp_all [stepM] <;> rcases hp with hp | hp <;> simp_all

/-- C10: a transition is only ever applied with target online or offline,
never unknown: over any run of reports and ticks, no transition record
with an unknown target is ever produced, `state` is unknown at the end
only if it was unknown at the start (once it leaves unknown it stays in
online/offline), and likewise `desired` never returns to unknown. -/
theorem unknown_never_reentered (env : Env) (m : Machine)
    (steps : List Step) :
    ((run env m steps).state = .unknown → m.state = .unknown) ∧
    ((run env m steps).desired = .unknown → m.desired = .unknown) ∧
    (∀ p ∈ (run env m steps).transLog, p.2 = .unknown →
      p ∈ m.transLog) := by
  induction steps generalizing m with
  | nil => exact ⟨id, id, fun p hp _ => hp⟩
  | cons s rest ih =>
    obtain ⟨ih1, ih2, ih3⟩ := ih (stepM env m s)
    obtain ⟨s1, s2, s3⟩ := stepM_preserves_not_unknown env m s
    simp only [run]
    exact ⟨fun h => s1 (ih1 h), fun h => s2 (ih2 h),
      fun p hp hu => s3 p (ih3 p hp hu) hu⟩

/-- Witness for C10: a run that brings the initial machine online via a
heartbeat and then ticks ends with a state that cannot be unknown unless
the start was (and the start was unknown, while the end is online). -/
theorem unknown_never_reentered_witness :
    ((run ⟨true, true⟩ initMachine
        [Step.report 1 [1, 1, 6], Step.tickAt 2]).state = .unknown →
      initMachine.state = .unknown) ∧
    (∀ p ∈ (run ⟨true, true⟩ initMachine
        [Step.report 1 [1, 1, 6], Step.tickAt 2]).transLog,
      p.2 = .unknown → p ∈ initMachine.transLog) :=
  ⟨(unknown_never_reentered ⟨true, true⟩ initMachine
      [Step.report 1 [1, 1, 6], Step.tickAt 2]).1,
   (unknown_never_reentered ⟨true, true⟩ initMachine
      [Step.report 1 [1, 1, 6], Step.tickAt 2]).2.2⟩

end VoidAutoswitch
